import Mathlib

/-!
Shallow embedding of the client-side streaming session manager of this
repository (`app/src/hooks/useAudioStream.ts`) together with proofs of the
specification claims about it.

Modelling conventions:
* React `useState` values and the mutable `useRef` cells read by the hook's
  logic are collected into one record, `HookState`; each handler from the
  source becomes a pure function `HookState → ... → HookState` (possibly
  paired with emitted observable events or scheduled delays).
* JavaScript truthiness tests on optional strings (`if (data.text)`) are
  modelled by `strTruthy`: `undefined` and `""` are falsy.
* Byte buffers (`Blob`, `ArrayBuffer`, `Uint8Array`) are `List ℕ` of byte
  values; `FileReader.readAsDataURL` followed by `split(',')[1]` yields the
  standard base64 encoding of the blob's bytes, modelled by `base64Encode`;
  `window.atob` is modelled by `atobDecode`.
* Timestamps (`performance.now()` millisecond values) are `ℤ`.
* `Date.now().toString()` and `toLocaleTimeString(...)` used when building a
  `Message` are environment inputs (`MsgEnv`); no claim depends on them.
* The visualization analyser nodes (`inputAnalyser`, `outputAnalyser`) carry
  no session logic beyond the silence detector's RMS samples (which are
  passed to `silenceTick` directly) and are not modelled as state.
-/

/-- `AppState` from `app/src/types.ts`. -/
inductive AppState where
  | idle | listening | processing | speaking
deriving DecidableEq, Repr

/-- `Emotion` from `app/src/types.ts`. -/
inductive Emotion where
  | HAPPY | SAD | NEUTRAL | THINKING | SURPRISED | ANGRY
deriving DecidableEq, Repr

/-- The `'user' | 'ai'` role tag of a `Message`. -/
inductive Role where
  | user | ai
deriving DecidableEq, Repr

/-- `Message` from `app/src/types.ts` (the `isTemporary` field is never used
by the hook and is omitted). -/
structure Message where
  id : String
  type : Role
  text : String
  timestamp : String
  audioData : Option String
deriving DecidableEq, Repr

/-- The `type` tag of an inbound `WebSocketMessage` (`app/src/types.ts`). -/
inductive WsType where
  | transcript | ai_response | ai_stream_chunk | ai_processing | audio
  | recording_started | recording_stopped | error | stt_error | user_speaking
deriving DecidableEq, Repr

/-- `WebSocketMessage` from `app/src/types.ts`; optional fields are `Option`. -/
structure WebSocketMessage where
  type : WsType
  text : Option String
  isFinal : Option Bool
  emotion : Option Emotion
  data : Option String
  message : Option String
  isProcessing : Option Bool
deriving DecidableEq, Repr

/-- JavaScript truthiness of an optional string: `undefined` and `""` are
falsy, every other string is truthy. -/
def strTruthy : Option String → Bool
  | none => false
  | some s => !(s == "")

/-- The `MediaRecorder.state` values. -/
inductive RecState where
  | inactive | recording | paused
deriving DecidableEq, Repr

/-- The base64 alphabet used by `btoa`/data URLs. -/
def base64Chars : String :=
  "ABCDEFGHIJKLMNOPQRSTUVWXYZabcdefghijklmnopqrstuvwxyz0123456789+/"

/-- Character for a 6-bit group. -/
def sextetChar (n : ℕ) : Char := base64Chars.toList.getD n 'A'

/-- Standard base64 encoding of a byte list, as produced for a `Blob` by
`FileReader.readAsDataURL` after stripping the `data:...;base64,` prefix. -/
def base64Encode : List ℕ → String
  | [] => ""
  | [b1] =>
      String.mk [sextetChar (b1 / 4), sextetChar (b1 % 4 * 16), '=', '=']
  | [b1, b2] =>
      String.mk [sextetChar (b1 / 4), sextetChar (b1 % 4 * 16 + b2 / 16),
                 sextetChar (b2 % 16 * 4), '=']
  | b1 :: b2 :: b3 :: rest =>
      String.mk [sextetChar (b1 / 4), sextetChar (b1 % 4 * 16 + b2 / 16),
                 sextetChar (b2 % 16 * 4 + b3 / 64), sextetChar (b3 % 64)]
        ++ base64Encode rest

/-- Value of a base64 character (index in the alphabet). -/
def sextetVal (c : Char) : ℕ := base64Chars.toList.findIdx (· == c)

/-- Regroup 6-bit values into bytes (base64 decoding core). -/
def decodeSextets : List ℕ → List ℕ
  | a :: b :: c :: d :: rest =>
      (a * 4 + b / 16) :: (b % 16 * 16 + c / 4) :: ((c % 4 * 64 + d)
        :: decodeSextets rest)
  | [a, b] => [a * 4 + b / 16]
  | [a, b, c] => [a * 4 + b / 16, b % 16 * 16 + c / 4]
  | _ => []

/-- Models `window.atob` on a base64 string: drop padding, map characters to
their 6-bit values, regroup into bytes. -/
def atobDecode (s : String) : List ℕ :=
  decodeSextets ((s.toList.filter (fun c => c ≠ '=')).map sextetVal)

/-- All `useState` values and logic-bearing `useRef` cells of
`useAudioStream`, as one record.  `isConversationActive` models
`isConversationActiveRef` (the `useState` mirror is kept in sync by the
source and read only by the UI).  `recorderState` is
`mediaRecorderRef.current?.state` (`inactive` when the ref is null). -/
structure HookState where
  isConnected : Bool
  appState : AppState
  transcript : String
  emotion : Emotion
  messages : List Message
  error : Option String
  streamingAiText : String
  isAiProcessing : Bool
  reconnectAttempt : ℕ
  audioQueue : List (List ℕ)
  isPlaying : Bool
  isConversationActive : Bool
  lastVoiceActivityAt : Option ℤ
  didAutoStopSegment : Bool
  currentAiAudioChunks : List String
  userRecordedAudio : List (List ℕ)
  recorderState : RecState
  hasMediaStream : Bool
deriving DecidableEq, Repr

/-- Environment inputs consumed by `addMessage`: `Date.now().toString()` and
the locale-formatted time string. -/
structure MsgEnv where
  nowId : String
  nowTimestamp : String
deriving DecidableEq, Repr

/-- `addMessage` from the hook: append a `Message` to the history. -/
def addMessage (env : MsgEnv) (st : HookState) (role : Role) (text : String)
    (audioData : Option String) : HookState :=
  { st with messages := st.messages ++
      [{ id := env.nowId, type := role, text := text,
         timestamp := env.nowTimestamp, audioData := audioData }] }

/-- `handleWebSocketMessage` from the hook: the protocol message router.
The `'audio'` case pushes the fragment into the accumulator and the playback
queue (`queueAudio`'s push); the conditional kick-off of draining is part of
the playback model (`playNextInQueue`). Asynchronous `FileReader` completion
in the final-transcript case is collapsed to its eventual state effect. -/
def handleWebSocketMessage (env : MsgEnv) (st : HookState)
    (data : WebSocketMessage) : HookState :=
  match data.type with
  | WsType.recording_started =>
      { st with appState := AppState.listening, transcript := "",
                userRecordedAudio := [] }
  | WsType.recording_stopped => st
  | WsType.transcript =>
      match data.text with
      | some t =>
          if t ≠ "" then
            let st1 := { st with transcript := t }
            if data.isFinal.getD false then
              let st2 :=
                if st1.userRecordedAudio.length > 0 then
                  addMessage env
                    { st1 with userRecordedAudio := [] } Role.user t
                    (some (base64Encode st1.userRecordedAudio.flatten))
                else
                  addMessage env st1 Role.user t none
              { st2 with appState := AppState.processing }
            else st1
          else st
      | none => st
  | WsType.ai_processing =>
      { st with isAiProcessing := data.isProcessing.getD true,
                streamingAiText := "" }
  | WsType.ai_stream_chunk =>
      match data.text with
      | some t =>
          if t ≠ "" then
            { st with streamingAiText := t, isAiProcessing := false }
          else st
      | none => st
  | WsType.ai_response =>
      match data.text with
      | some t =>
          if t ≠ "" then
            let combinedAudio :=
              if st.currentAiAudioChunks.length > 0 then
                some (String.intercalate "|" st.currentAiAudioChunks)
              else none
            let st1 := addMessage env st Role.ai t combinedAudio
            let st2 := { st1 with currentAiAudioChunks := [],
                                  streamingAiText := "",
                                  isAiProcessing := false }
            let st3 :=
              match data.emotion with
              | some e => { st2 with emotion := e }
              | none => st2
            { st3 with appState := AppState.speaking }
          else st
      | none => st
  | WsType.audio =>
      match data.data with
      | some d =>
          if d ≠ "" then
            { st with currentAiAudioChunks := st.currentAiAudioChunks ++ [d],
                      audioQueue := st.audioQueue ++ [atobDecode d] }
          else st
      | none => st
  | WsType.user_speaking =>
      let st1 := { st with audioQueue := [] }
      if st1.isPlaying then
        { st1 with isPlaying := false, appState := AppState.listening }
      else st1
  | WsType.error | WsType.stt_error =>
      { st with
          error := some (match data.message with
                         | some m => if m ≠ "" then m else "Có lỗi xảy ra"
                         | none => "Có lỗi xảy ra"),
          appState := AppState.idle }

/-- `_startMediaRecorder` from the hook.  `micOk = false` models
`navigator.mediaDevices.getUserMedia` rejecting (microphone unavailable or
denied): control jumps to the `catch` block, which sets the error message and
clears `isConversationActiveRef` — and touches nothing else.  `micOk = true`
models successful acquisition: the analyser is installed, the voice-activity
clock and auto-stop guard are reset, the recorder starts, and the state
becomes `listening` with a cleared transcript.  The closure-local `chunks`
buffer and its `ondataavailable`/`onstop` handlers are modelled by
`RecorderSeg` below. -/
def startMediaRecorder (micOk : Bool) (now : ℤ) (st : HookState) : HookState :=
  if st.recorderState = RecState.recording then st
  else if micOk then
    { st with hasMediaStream := true,
              lastVoiceActivityAt := some now,
              didAutoStopSegment := false,
              recorderState := RecState.recording,
              appState := AppState.listening,
              transcript := "" }
  else
    { st with error := some "Không thể truy cập microphone",
              isConversationActive := false }

/-- `startRecording` from the hook: mark the conversation active, then start
the media recorder. -/
def startRecording (micOk : Bool) (now : ℤ) (st : HookState) : HookState :=
  startMediaRecorder micOk now { st with isConversationActive := true }

/-- `stopMediaRecorder` from the hook: stop a non-inactive recorder and
release the media stream tracks. -/
def stopMediaRecorder (st : HookState) : HookState :=
  let st1 := if st.recorderState ≠ RecState.inactive then
               { st with recorderState := RecState.inactive }
             else st
  { st1 with hasMediaStream := false }

/-- `stopRecording` from the hook: clear the conversation-active flag and
stop the recorder. -/
def stopRecording (st : HookState) : HookState :=
  stopMediaRecorder { st with isConversationActive := false }

/-- `socket.onopen`: connected, clear error, reset the reconnect counter. -/
def socketOnopen (st : HookState) : HookState :=
  { st with isConnected := true, error := none, reconnectAttempt := 0 }

/-- `socket.onclose`: disconnected, increment the attempt counter, and return
the scheduled reconnect delay `Math.min(5000, 500 * attempt)` (ms). -/
def socketOnclose (st : HookState) : HookState × ℕ :=
  let attempt := st.reconnectAttempt + 1
  ({ st with isConnected := false, reconnectAttempt := attempt },
   min 5000 (500 * attempt))

/-- Delays scheduled by `n` consecutive unexpected closes. -/
def closeDelays : HookState → ℕ → List ℕ
  | _, 0 => []
  | st, n + 1 => (socketOnclose st).2 :: closeDelays (socketOnclose st).1 n

/-- `SILENCE_MS` from the silence-detection effect. -/
def SILENCE_MS : ℤ := 1500

/-- The `rms > RMS_THRESHOLD` test of the silence-detection interval.  The
source computes `Math.sqrt(sumSquares / dataArray.length) > 0.01` where each
sample `x ∈ 0..255` contributes `v² = ((x - 128) / 128)²`.  Both sides of the
comparison are nonnegative, so it is equivalent to comparing the squares:
`sumSquares / length > 1/10000`.  With `S = Σ (x - 128)²` (an exact integer)
we have `sumSquares = S / 16384`, so for `length > 0` the test is
`10000 * S > 16384 * length`; for `length = 0` the source computes
`NaN > 0.01`, which is false, matching `10000 * 0 > 0` here. -/
def rmsAboveThreshold (window : List ℕ) : Bool :=
  let sumSquaresScaled : ℤ :=
    (window.map fun x => ((x : ℤ) - 128) * ((x : ℤ) - 128)).sum
  decide (10000 * sumSquaresScaled > 16384 * (window.length : ℤ))

/-- One tick of the silence-detection `setInterval` callback: `window` is the
time-domain sample array read from the analyser, `now` is
`performance.now()`.  Returns the updated state and whether the auto-stop
fired on this tick. -/
def silenceTick (st : HookState) (window : List ℕ) (now : ℤ) :
    HookState × Bool :=
  if st.appState ≠ AppState.listening then (st, false)
  else if st.recorderState ≠ RecState.recording then (st, false)
  else if rmsAboveThreshold window then
    ({ st with lastVoiceActivityAt := some now }, false)
  else
    match st.lastVoiceActivityAt with
    | none => ({ st with lastVoiceActivityAt := some now }, false)
    | some last =>
        if st.didAutoStopSegment = false ∧ now - last ≥ SILENCE_MS then
          ({ st with didAutoStopSegment := true,
                     appState := AppState.processing,
                     recorderState := RecState.inactive,
                     hasMediaStream := false }, true)
        else (st, false)

/-- Run a sequence of silence-detection ticks; returns the final state and
the number of ticks on which the auto-stop fired. -/
def runSilenceTicks : HookState → List (List ℕ × ℤ) → HookState × ℕ
  | st, [] => (st, 0)
  | st, (w, t) :: rest =>
      let r := silenceTick st w t
      let r2 := runSilenceTicks r.1 rest
      (r2.1, (if r.2 then 1 else 0) + r2.2)

/-- Outbound frames sent by the recorder's `onstop` handler. -/
inductive OutFrame where
  | audio_complete (data : String) (mimeType : String)
deriving DecidableEq, Repr

/-- The closure state of one `_startMediaRecorder` call: the local `chunks`
array and the frames sent so far.  (Each chunk is also pushed onto
`userRecordedAudioRef`, modelled at the `HookState` level.) -/
structure RecorderSeg where
  chunks : List (List ℕ)
  sent : List OutFrame
deriving DecidableEq, Repr

/-- Events delivered to one `MediaRecorder` instance during a capture
segment. -/
inductive RecEvent where
  | dataavailable (bytes : List ℕ)
  | stop
deriving DecidableEq, Repr

/-- `mediaRecorder.ondataavailable`: push the blob if `event.data.size > 0`. -/
def recOndataavailable (st : RecorderSeg) (bytes : List ℕ) : RecorderSeg :=
  if bytes.length > 0 then { st with chunks := st.chunks ++ [bytes] } else st

/-- `mediaRecorder.onstop`: if no chunks were captured do nothing; otherwise
build the blob from all chunks, base64-encode it, and — when the socket is
open — send one `audio_complete` frame. -/
def recOnstop (socketOpen : Bool) (st : RecorderSeg) : RecorderSeg :=
  if st.chunks.length = 0 then st
  else if socketOpen then
    { st with sent := st.sent ++
        [OutFrame.audio_complete (base64Encode st.chunks.flatten)
          "audio/webm"] }
  else st

/-- Run a MediaRecorder event sequence over a capture segment. -/
def recRun (socketOpen : Bool) (st : RecorderSeg) : List RecEvent → RecorderSeg
  | [] => st
  | RecEvent.dataavailable b :: rest =>
      recRun socketOpen (recOndataavailable st b) rest
  | RecEvent.stop :: rest => recRun socketOpen (recOnstop socketOpen st) rest

/-- Observable events of the playback sequencer: a fragment's source node
started, a fragment's `onended` fired, or the drain-complete branch called
`_startMediaRecorder()` to resume capture. -/
inductive SeqEvent where
  | started (buf : List ℕ)
  | ended (buf : List ℕ)
  | resumeCapture
deriving DecidableEq, Repr

/-- `backfillMessages` — the `setMessages` updater of the drain-complete
branch of `playNextInQueue`: attach the joined audio to the last message if
it is an AI message without (truthy) `audioData`. -/
def backfillMessages (combinedAudio : String) (prev : List Message) :
    List Message :=
  match prev.getLast? with
  | some lastMsg =>
      if lastMsg.type = Role.ai then
        if strTruthy lastMsg.audioData then prev
        else prev.set (prev.length - 1)
               { lastMsg with audioData := some combinedAudio }
      else prev
  | none => prev

/-- The fragment-accumulator backfill step of the drain-complete branch:
when chunks were accumulated, join them with `'|'`, backfill onto the last
message, and clear the accumulator. -/
def drainBackfill (st : HookState) : HookState :=
  if st.currentAiAudioChunks.length > 0 then
    { st with
        messages := backfillMessages
          (String.intercalate "|" st.currentAiAudioChunks) st.messages,
        currentAiAudioChunks := [] }
  else st

/-- The tail of the `playNextInQueue` drain-complete branch: if the session
is still `speaking`, either resume capture (conversation active) or relax to
`idle` and reset emotion to `NEUTRAL`. -/
def drainEmptySpeak (st2 : HookState) : HookState × List SeqEvent :=
  if st2.appState = AppState.speaking then
    if st2.isConversationActive then (st2, [SeqEvent.resumeCapture])
    else ({ st2 with appState := AppState.idle, emotion := Emotion.NEUTRAL },
          [])
  else (st2, [])

/-- The `audioQueueRef.current.length === 0` branch of `playNextInQueue`:
mark not playing, backfill accumulated audio, then `drainEmptySpeak`. -/
def drainEmptyBranch (st : HookState) : HookState × List SeqEvent :=
  drainEmptySpeak (drainBackfill { st with isPlaying := false })

/-- The recursion of `playNextInQueue`, structurally on the queue (which
equals `st.audioQueue` at every call: each recursive call pops the head it
is about to play).  `d buf = true` models `decodeAudioData` succeeding for
`buf`; on success the source starts (`started`), its `onended` fires
(`ended`), and the chain recurses; on decode failure the `catch` block
recurses directly, skipping the fragment. -/
def drainFrom (d : List ℕ → Bool) : HookState → List (List ℕ) →
    HookState × List SeqEvent
  | st, [] => drainEmptyBranch st
  | st, buf :: rest =>
      let st1 := { st with isPlaying := true, appState := AppState.speaking,
                           audioQueue := rest }
      if d buf then
        let r := drainFrom d st1 rest
        (r.1, SeqEvent.started buf :: SeqEvent.ended buf :: r.2)
      else drainFrom d st1 rest

/-- `playNextInQueue` from the hook, as the drain loop over the current
queue. -/
def playNextInQueue (d : List ℕ → Bool) (st : HookState) :
    HookState × List SeqEvent :=
  drainFrom d st st.audioQueue

/-- `queueAudio` from the hook: push the buffer; if nothing is playing,
begin draining. -/
def queueAudio (d : List ℕ → Bool) (st : HookState) (buffer : List ℕ) :
    HookState × List SeqEvent :=
  let st1 := { st with audioQueue := st.audioQueue ++ [buffer] }
  if st1.isPlaying then (st1, []) else playNextInQueue d st1

/-- Buffers of the `started` events in a sequencer event list. -/
def startedBufs (evs : List SeqEvent) : List (List ℕ) :=
  evs.filterMap fun e =>
    match e with
    | SeqEvent.started b => some b
    | _ => none

/-- A fixed message-building environment for concrete evaluations. -/
def envA : MsgEnv := { nowId := "0", nowTimestamp := "00:00" }

/-- An inbound frame with only a `type` tag (all optional fields absent). -/
def wsFrame (t : WsType) : WebSocketMessage :=
  { type := t, text := none, isFinal := none, emotion := none, data := none,
    message := none, isProcessing := none }

/-- The hook's initial state after mount and a successful connect. -/
def baseState : HookState :=
  { isConnected := true, appState := AppState.idle, transcript := "",
    emotion := Emotion.NEUTRAL, messages := [], error := none,
    streamingAiText := "", isAiProcessing := false, reconnectAttempt := 0,
    audioQueue := [], isPlaying := false, isConversationActive := false,
    lastVoiceActivityAt := none, didAutoStopSegment := false,
    currentAiAudioChunks := [], userRecordedAudio := [],
    recorderState := RecState.inactive, hasMediaStream := false }

/-- A reachable state in which the AI reply has arrived (`appState` is
`speaking`) but no fragment is currently playing. -/
def speakingIdleState : HookState :=
  { baseState with appState := AppState.speaking }

/-- A reachable state for the hands-free resume path: the drain-complete
branch runs `_startMediaRecorder()` while `appState` is `speaking`. -/
def stMicFail : HookState :=
  { baseState with appState := AppState.speaking,
                   isConversationActive := true }

/- ------------------------------------------------------------------ -/
/- Helper lemmas                                                      -/
/- ------------------------------------------------------------------ -/

theorem recRun_append (so : Bool) (st : RecorderSeg) (l1 l2 : List RecEvent) :
    recRun so st (l1 ++ l2) = recRun so (recRun so st l1) l2 := by
  induction l1 generalizing st with
  | nil => rfl
  | cons e rest ih => cases e <;> simp [recRun, ih]

theorem recRun_datas (so : Bool) (datas : List (List ℕ)) :
    ∀ st : RecorderSeg,
      recRun so st (datas.map RecEvent.dataavailable) =
        { st with chunks := st.chunks ++
            datas.filter (fun b => b.length > 0) } := by
  induction datas with
  | nil => intro st; simp [recRun]
  | cons b rest ih =>
      intro st
      by_cases hb : b.length > 0 <;>
        simp [recRun, recOndataavailable, List.filter_cons, hb, ih,
              List.append_assoc]

/- ------------------------------------------------------------------ -/
/- Claim C1                                                           -/
/- ------------------------------------------------------------------ -/

/-- Claim C1: over a capture segment (data events followed by the recorder's
stop event) with the socket open, if at least one nonempty chunk was
captured then exactly one `audio_complete` frame is sent, carrying the
base64 encoding of the concatenation of the captured chunks in capture
order; no frame is sent before the stop event (the recorder has finalized);
and if zero chunks were captured no frame is sent at all. -/
theorem audio_complete_exactly_once (datas : List (List ℕ))
    (hnz : datas.filter (fun b => b.length > 0) ≠ []) :
    (recRun true ⟨[], []⟩
        (datas.map RecEvent.dataavailable ++ [RecEvent.stop])).sent =
      [OutFrame.audio_complete
        (base64Encode (datas.filter (fun b => b.length > 0)).flatten)
        "audio/webm"] ∧
    (recRun true ⟨[], []⟩ (datas.map RecEvent.dataavailable)).sent = [] ∧
    (∀ datas2 : List (List ℕ), datas2.filter (fun b => b.length > 0) = [] →
      (recRun true ⟨[], []⟩
          (datas2.map RecEvent.dataavailable ++ [RecEvent.stop])).sent = []) := by
  refine ⟨?_, ?_, ?_⟩
  · have hlen : (datas.filter (fun b => b.length > 0)).length ≠ 0 := by
      simpa [List.length_eq_zero] using hnz
    rw [recRun_append, recRun_datas]
    simp [recRun, recOnstop, hlen]
  · rw [recRun_datas]
  · intro datas2 h2
    rw [recRun_append, recRun_datas]
    simp [recRun, recOnstop, h2]

/-- Witness for C1 at the concrete segment `[[1, 2, 3]]`. -/
theorem audio_complete_exactly_once_witness :
    ([[1, 2, 3]] : List (List ℕ)).filter (fun b => b.length > 0) ≠ [] ∧
    (recRun true ⟨[], []⟩
        (([[1, 2, 3]] : List (List ℕ)).map RecEvent.dataavailable ++
          [RecEvent.stop])).sent =
      [OutFrame.audio_complete
        (base64Encode
          ((([[1, 2, 3]] : List (List ℕ)).filter
              (fun b => b.length > 0)).flatten))
        "audio/webm"] :=
  ⟨by decide, (audio_complete_exactly_once [[1, 2, 3]] (by decide)).1⟩

/- ------------------------------------------------------------------ -/
/- Claim C3                                                           -/
/- ------------------------------------------------------------------ -/

theorem closeDelays_get (n : ℕ) :
    ∀ (st : HookState) (i : ℕ), i < n →
      (closeDelays st n)[i]? =
        some (min 5000 (500 * (st.reconnectAttempt + i + 1))) := by
  induction n with
  | zero => intro st i hi; omega
  | succ n ih =>
      intro st i hi
      cases i with
      | zero => simp [closeDelays, socketOnclose]
      | succ i =>
          have := ih (socketOnclose st).1 i (by omega)
          simp only [closeDelays, List.getElem?_cons_succ]
          rw [this]
          simp [socketOnclose]
          ring_nf

/-- Claim C3: starting from a reset counter, the `i+1`-st consecutive
unexpected close schedules a reconnect after `min(5000, 500 * (i+1))` ms;
every close increments the attempt counter; a successful open resets the
counter to zero, so the next unexpected close retries after 500 ms. -/
theorem reconnect_backoff (st : HookState) (n i : ℕ)
    (h0 : st.reconnectAttempt = 0) (hi : i < n) :
    (closeDelays st n)[i]? = some (min 5000 (500 * (i + 1))) ∧
    (∀ st2 : HookState,
      (socketOnclose st2).1.reconnectAttempt = st2.reconnectAttempt + 1) ∧
    (∀ st2 : HookState, (socketOnopen st2).reconnectAttempt = 0) ∧
    (∀ st2 : HookState, (socketOnclose (socketOnopen st2)).2 = 500) := by
  refine ⟨?_, ?_, ?_, ?_⟩
  · have := closeDelays_get n st i hi
    rwa [h0, Nat.zero_add] at this
  · intro st2; rfl
  · intro st2; rfl
  · intro st2; simp [socketOnclose, socketOnopen]

/-- Witness for C3: the 12th consecutive close after a reset counter is
scheduled with the capped delay `min(5000, 500 * 12) = 5000` ms. -/
theorem reconnect_backoff_witness :
    baseState.reconnectAttempt = 0 ∧ 11 < 12 ∧
    (closeDelays baseState 12)[11]? = some (min 5000 (500 * (11 + 1))) :=
  ⟨rfl, by decide, (reconnect_backoff baseState 12 11 rfl (by decide)).1⟩

/- ------------------------------------------------------------------ -/
/- Claim C9 (corrected)                                               -/
/- ------------------------------------------------------------------ -/

/-- Counterexample for C9 as stated: when microphone acquisition fails while
`appState` is `speaking` (the hands-free resume path), the catch block sets
the error and clears the conversation flag but does NOT reset `appState` to
`idle` — it stays `speaking`. -/
theorem mic_failure_no_idle_reset :
    (startMediaRecorder false 0 stMicFail).error =
      some "Không thể truy cập microphone" ∧
    (startMediaRecorder false 0 stMicFail).appState = AppState.speaking ∧
    (startMediaRecorder false 0 stMicFail).appState ≠ AppState.idle := by
  decide

/-- Claim C9 (amended): for every failure to acquire the microphone device
(recorder not already recording), a user-visible error message is surfaced,
`appState` is left unchanged — in particular the session does not transition
into `listening` — and the conversation-active flag is cleared. -/
theorem mic_failure_effect (st : HookState) (now : ℤ)
    (hrec : st.recorderState ≠ RecState.recording) :
    (startMediaRecorder false now st).error =
      some "Không thể truy cập microphone" ∧
    (startMediaRecorder false now st).appState = st.appState ∧
    (startMediaRecorder false now st).isConversationActive = false := by
  simp [startMediaRecorder, hrec]

/-- Witness for C9 (amended) at the initial state. -/
theorem mic_failure_effect_witness :
    baseState.recorderState ≠ RecState.recording ∧
    ((startMediaRecorder false 0 baseState).error =
        some "Không thể truy cập microphone" ∧
      (startMediaRecorder false 0 baseState).appState = baseState.appState ∧
      (startMediaRecorder false 0 baseState).isConversationActive = false) :=
  ⟨by decide, mic_failure_effect baseState 0 (by decide)⟩

/- ------------------------------------------------------------------ -/
/- Claim C10                                                          -/
/- ------------------------------------------------------------------ -/

/-- Claim C10: an inbound `ai_response` frame whose `text` is missing or
empty leaves the entire session state unchanged: no AI message is appended,
emotion is not updated, `appState` does not become `speaking`, the streamed
AI text and AI-processing flag are untouched, and the buffered inbound audio
fragments remain. -/
theorem ai_response_empty_noop (env : MsgEnv) (st : HookState)
    (frame : WebSocketMessage) (ht : frame.type = WsType.ai_response)
    (he : strTruthy frame.text = false) :
    handleWebSocketMessage env st frame = st := by
  obtain ⟨ty, text, fin, emo, dat, msg, proc⟩ := frame
  simp only at ht he
  subst ht
  cases text with
  | none => rfl
  | some s =>
      simp [strTruthy] at he
      subst he
      simp [handleWebSocketMessage]

/-- Witness for C10: a bare `ai_response` frame (no text) is a no-op on the
initial state. -/
theorem ai_response_empty_noop_witness :
    (wsFrame WsType.ai_response).type = WsType.ai_response ∧
    strTruthy (wsFrame WsType.ai_response).text = false ∧
    handleWebSocketMessage envA baseState (wsFrame WsType.ai_response) =
      baseState :=
  ⟨rfl, rfl, ai_response_empty_noop envA baseState _ rfl rfl⟩

/- ------------------------------------------------------------------ -/
/- Silence-detector helper lemmas                                     -/
/- ------------------------------------------------------------------ -/

theorem silenceTick_not_listening (st : HookState) (w : List ℕ) (t : ℤ)
    (h : st.appState ≠ AppState.listening) : silenceTick st w t = (st, false) := by
  simp [silenceTick, h]

theorem silenceTick_flag_true (st : HookState) (w : List ℕ) (t : ℤ)
    (h : st.didAutoStopSegment = true) :
    (silenceTick st w t).2 = false ∧
    (silenceTick st w t).1.didAutoStopSegment = true := by
  unfold silenceTick
  split_ifs with h1 h2 h3
  · exact ⟨rfl, h⟩
  · exact ⟨rfl, h⟩
  · exact ⟨rfl, h⟩
  · cases st.lastVoiceActivityAt with
    | none => exact ⟨rfl, h⟩
    | some last => simp [h]

theorem runSilenceTicks_not_listening (st : HookState)
    (h : st.appState ≠ AppState.listening) :
    ∀ inputs, runSilenceTicks st inputs = (st, 0) := by
  intro inputs
  induction inputs with
  | nil => rfl
  | cons p rest ih =>
      obtain ⟨w, t⟩ := p
      simp [runSilenceTicks, silenceTick_not_listening st w t h, ih]

theorem runSilenceTicks_flag_true :
    ∀ (inputs : List (List ℕ × ℤ)) (st : HookState),
      st.didAutoStopSegment = true → (runSilenceTicks st inputs).2 = 0 := by
  intro inputs
  induction inputs with
  | nil => intro st _; rfl
  | cons p rest ih =>
      intro st h
      obtain ⟨w, t⟩ := p
      obtain ⟨h2f, h2flag⟩ := silenceTick_flag_true st w t h
      simp [runSilenceTicks, h2f, ih _ h2flag]

theorem runSilenceTicks_fires (L : ℤ) :
    ∀ (inputs : List (List ℕ × ℤ)) (st : HookState),
      st.appState = AppState.listening →
      st.recorderState = RecState.recording →
      st.didAutoStopSegment = false →
      st.lastVoiceActivityAt = some L →
      (∀ p ∈ inputs, rmsAboveThreshold p.1 = false) →
      (∃ p ∈ inputs, p.2 - L ≥ SILENCE_MS) →
      (runSilenceTicks st inputs).2 = 1 ∧
      (runSilenceTicks st inputs).1.appState = AppState.processing ∧
      (runSilenceTicks st inputs).1.recorderState = RecState.inactive ∧
      (runSilenceTicks st inputs).1.didAutoStopSegment = true := by
  intro inputs
  induction inputs with
  | nil =>
      intro st _ _ _ _ _ hex
      simp at hex
  | cons p rest ih =>
      intro st h1 h2 h3 h4 hall hex
      obtain ⟨w, t⟩ := p
      have hw : rmsAboveThreshold w = false := hall (w, t) (List.mem_cons_self _ _)
      by_cases hge : t - L ≥ SILENCE_MS
      · have htick : silenceTick st w t =
            ({ st with didAutoStopSegment := true,
                       appState := AppState.processing,
                       recorderState := RecState.inactive,
                       hasMediaStream := false }, true) := by
          simp [silenceTick, h1, h2, hw, h4, h3, hge]
        have hrest := runSilenceTicks_not_listening
          { st with didAutoStopSegment := true,
                    appState := AppState.processing,
                    recorderState := RecState.inactive,
                    hasMediaStream := false } (by simp) rest
        refine ⟨?_, ?_, ?_, ?_⟩ <;> simp [runSilenceTicks, htick, hrest]
      · have htick : silenceTick st w t = (st, false) := by
          simp [silenceTick, h1, h2, hw, h4, h3, hge]
        have hex' : ∃ p ∈ rest, p.2 - L ≥ SILENCE_MS := by
          rcases hex with ⟨q, hq, hqt⟩
          rcases List.mem_cons.mp hq with heq | hmem
          · rw [heq] at hqt
            exact absurd hqt hge
          · exact ⟨q, hmem, hqt⟩
        have hall' : ∀ p ∈ rest, rmsAboveThreshold p.1 = false :=
          fun p hp => hall p (List.mem_cons_of_mem _ hp)
        have hres := ih st h1 h2 h3 h4 hall' hex'
        refine ⟨?_, ?_, ?_, ?_⟩ <;>
          simp [runSilenceTicks, htick, hres.1, hres.2.1, hres.2.2.1,
                hres.2.2.2]

/- ------------------------------------------------------------------ -/
/- Claim C2                                                           -/
/- ------------------------------------------------------------------ -/

/-- Claim C2: while `appState` is `listening` with the conversation active
and the recorder recording, a run of sub-threshold RMS samples that reaches
1500 ms past the last recorded voice activity fires the auto-stop exactly
once — `appState` becomes `processing`, the recorder is stopped, and the
guard flag is set; a tick never fires while `appState` is not `listening`;
once the guard flag is set no tick of the segment fires again, even if
sub-threshold samples continue; and starting a new capture segment resets
the guard flag. -/
theorem silence_autostop_once (st : HookState) (inputs : List (List ℕ × ℤ))
    (L : ℤ)
    (_hconv : st.isConversationActive = true)
    (h1 : st.appState = AppState.listening)
    (h2 : st.recorderState = RecState.recording)
    (h3 : st.didAutoStopSegment = false)
    (h4 : st.lastVoiceActivityAt = some L)
    (hall : ∀ p ∈ inputs, rmsAboveThreshold p.1 = false)
    (hex : ∃ p ∈ inputs, p.2 - L ≥ SILENCE_MS) :
    ((runSilenceTicks st inputs).2 = 1 ∧
      (runSilenceTicks st inputs).1.appState = AppState.processing ∧
      (runSilenceTicks st inputs).1.recorderState = RecState.inactive ∧
      (runSilenceTicks st inputs).1.didAutoStopSegment = true) ∧
    (∀ (st2 : HookState) (w : List ℕ) (t : ℤ),
      st2.appState ≠ AppState.listening → (silenceTick st2 w t).2 = false) ∧
    (∀ (st2 : HookState) (inputs2 : List (List ℕ × ℤ)),
      st2.didAutoStopSegment = true → (runSilenceTicks st2 inputs2).2 = 0) ∧
    (∀ (now : ℤ) (st3 : HookState), st3.recorderState ≠ RecState.recording →
      (startMediaRecorder true now st3).didAutoStopSegment = false) := by
  refine ⟨runSilenceTicks_fires L inputs st h1 h2 h3 h4 hall hex, ?_, ?_, ?_⟩
  · intro st2 w t h
    rw [silenceTick_not_listening st2 w t h]
  · intro st2 inputs2 h
    exact runSilenceTicks_flag_true inputs2 st2 h
  · intro now st3 hrec
    simp [startMediaRecorder, hrec]

/-- A state in listening/recording position with last voice activity at
time 0. -/
def stListen : HookState :=
  { baseState with appState := AppState.listening,
                   recorderState := RecState.recording,
                   isConversationActive := true,
                   lastVoiceActivityAt := some 0 }

/-- A concrete tick run: two silent sample windows, the second 1600 ms past
the last voice activity. -/
def silenceRun : List (List ℕ × ℤ) := [([128, 128], 100), ([128, 128], 1600)]

/-- Witness for C2 on the concrete run `silenceRun`. -/
theorem silence_autostop_once_witness :
    stListen.isConversationActive = true ∧
    stListen.appState = AppState.listening ∧
    stListen.recorderState = RecState.recording ∧
    stListen.didAutoStopSegment = false ∧
    stListen.lastVoiceActivityAt = some 0 ∧
    (∀ p ∈ silenceRun, rmsAboveThreshold p.1 = false) ∧
    (∃ p ∈ silenceRun, p.2 - 0 ≥ SILENCE_MS) ∧
    ((runSilenceTicks stListen silenceRun).2 = 1 ∧
      (runSilenceTicks stListen silenceRun).1.appState =
        AppState.processing ∧
      (runSilenceTicks stListen silenceRun).1.recorderState =
        RecState.inactive ∧
      (runSilenceTicks stListen silenceRun).1.didAutoStopSegment = true) :=
  ⟨rfl, rfl, rfl, rfl, rfl, by decide, by decide,
   (silence_autostop_once stListen silenceRun 0 rfl rfl rfl rfl rfl
     (by decide) (by decide)).1⟩

/- ------------------------------------------------------------------ -/
/- Playback-sequencer helper lemmas                                   -/
/- ------------------------------------------------------------------ -/

theorem drainBackfill_fields (st : HookState) :
    (drainBackfill st).appState = st.appState ∧
    (drainBackfill st).isConversationActive = st.isConversationActive ∧
    (drainBackfill st).emotion = st.emotion ∧
    (drainBackfill st).isPlaying = st.isPlaying := by
  unfold drainBackfill
  split <;> simp

theorem drainBackfill_notPlaying_fields (st : HookState) :
    (drainBackfill { st with isPlaying := false }).appState = st.appState ∧
    (drainBackfill { st with isPlaying := false }).isConversationActive =
      st.isConversationActive ∧
    (drainBackfill { st with isPlaying := false }).emotion = st.emotion := by
  unfold drainBackfill
  split <;> simp

theorem drainEmptySpeak_snd (st2 : HookState) :
    (drainEmptySpeak st2).2 = [] ∨
    (drainEmptySpeak st2).2 = [SeqEvent.resumeCapture] := by
  unfold drainEmptySpeak
  split_ifs <;> simp

theorem drainEmptyBranch_snd (st : HookState) :
    (drainEmptyBranch st).2 = [] ∨
    (drainEmptyBranch st).2 = [SeqEvent.resumeCapture] := by
  unfold drainEmptyBranch
  exact drainEmptySpeak_snd _

theorem drainFrom_events (d : List ℕ → Bool) (q : List (List ℕ)) :
    ∀ st : HookState,
      ∃ r, (drainFrom d st q).2 =
          (q.filter d).flatMap
            (fun b => [SeqEvent.started b, SeqEvent.ended b]) ++ r ∧
        (r = [] ∨ r = [SeqEvent.resumeCapture]) := by
  induction q with
  | nil =>
      intro st
      exact ⟨(drainEmptyBranch st).2, by simp [drainFrom],
             drainEmptyBranch_snd st⟩
  | cons buf rest ih =>
      intro st
      obtain ⟨r, hr, hor⟩ :=
        ih { st with isPlaying := true, appState := AppState.speaking,
                     audioQueue := rest }
      by_cases hd : d buf
      · exact ⟨r, by simp [drainFrom, hd, hr, List.filter_cons], hor⟩
      · exact ⟨r, by simp [drainFrom, hd, hr, List.filter_cons], hor⟩

theorem startedBufs_emptyQueue (d : List ℕ → Bool) (st : HookState)
    (hq : st.audioQueue = []) :
    startedBufs (playNextInQueue d st).2 = [] := by
  unfold playNextInQueue
  rw [hq]
  show startedBufs (drainEmptyBranch st).2 = []
  rcases drainEmptyBranch_snd st with h | h <;> simp [startedBufs, h]

/- ------------------------------------------------------------------ -/
/- Claim C5                                                           -/
/- ------------------------------------------------------------------ -/

/-- Claim C5: draining the playback queue plays exactly the decodable
fragments, in queue (arrival) order, with no overlap — the event trace is
`started F, ended F` for each fragment `F` in turn, so each fragment's
`onended` fires before the next fragment's `start` — and a fragment whose
decode fails is skipped while draining continues; the only other events are
a possible trailing capture-resume from the drain-complete branch. -/
theorem playback_fifo (d : List ℕ → Bool) (st : HookState) :
    ∃ r, (playNextInQueue d st).2 =
        (st.audioQueue.filter d).flatMap
          (fun b => [SeqEvent.started b, SeqEvent.ended b]) ++ r ∧
      (r = [] ∨ r = [SeqEvent.resumeCapture]) :=
  drainFrom_events d st.audioQueue st

/- ------------------------------------------------------------------ -/
/- Claim C4 (corrected)                                               -/
/- ------------------------------------------------------------------ -/

/-- Counterexample for C4 as stated: a `user_speaking` frame received while
nothing is actively playing (here: `appState = speaking` right after an
`ai_response`, before any fragment plays) does NOT transition `appState` to
`listening` — the transition only happens when `isPlayingRef` was set. -/
theorem user_speaking_no_listening_transition :
    (handleWebSocketMessage envA speakingIdleState
        (wsFrame WsType.user_speaking)).appState = AppState.speaking ∧
    (handleWebSocketMessage envA speakingIdleState
        (wsFrame WsType.user_speaking)).appState ≠ AppState.listening := by
  decide

/-- Claim C4 (amended): for every `user_speaking` frame, the pending
playback queue becomes empty and no fragment that was pending is ever
played (a subsequent drain starts nothing); if a fragment was actively
playing, playback is stopped and `appState` transitions to `listening`;
otherwise the state is unchanged apart from the cleared queue (in
particular `appState` does not change). -/
theorem user_speaking_bargein (env : MsgEnv) (st : HookState)
    (frame : WebSocketMessage) (d : List ℕ → Bool)
    (ht : frame.type = WsType.user_speaking) :
    (handleWebSocketMessage env st frame).audioQueue = [] ∧
    (st.isPlaying = true →
      (handleWebSocketMessage env st frame).isPlaying = false ∧
      (handleWebSocketMessage env st frame).appState = AppState.listening) ∧
    (st.isPlaying = false →
      handleWebSocketMessage env st frame = { st with audioQueue := [] }) ∧
    startedBufs
      (playNextInQueue d (handleWebSocketMessage env st frame)).2 = [] := by
  obtain ⟨ty, text, fin, emo, dat, msg, proc⟩ := frame
  simp only at ht
  subst ht
  have hq : (handleWebSocketMessage env st
      ⟨WsType.user_speaking, text, fin, emo, dat, msg, proc⟩).audioQueue
      = [] := by
    by_cases hp : st.isPlaying <;> simp [handleWebSocketMessage, hp]
  refine ⟨hq, ?_, ?_, startedBufs_emptyQueue d _ hq⟩
  · intro hp
    simp [handleWebSocketMessage, hp]
  · intro hp
    simp [handleWebSocketMessage, hp]

/-- Witness for C4 (amended) at a state with two pending fragments and an
actively playing one. -/
theorem user_speaking_bargein_witness :
    (wsFrame WsType.user_speaking).type = WsType.user_speaking ∧
    ((handleWebSocketMessage envA
        { baseState with appState := AppState.speaking, isPlaying := true,
                         audioQueue := [[1], [2]] }
        (wsFrame WsType.user_speaking)).audioQueue = [] ∧
      ({ baseState with appState := AppState.speaking, isPlaying := true,
                        audioQueue := ([[1], [2]] : List (List ℕ))
         }.isPlaying = true →
        (handleWebSocketMessage envA
            { baseState with appState := AppState.speaking, isPlaying := true,
                             audioQueue := [[1], [2]] }
            (wsFrame WsType.user_speaking)).isPlaying = false ∧
        (handleWebSocketMessage envA
            { baseState with appState := AppState.speaking, isPlaying := true,
                             audioQueue := [[1], [2]] }
            (wsFrame WsType.user_speaking)).appState = AppState.listening) ∧
      ({ baseState with appState := AppState.speaking, isPlaying := true,
                        audioQueue := ([[1], [2]] : List (List ℕ))
         }.isPlaying = false →
        handleWebSocketMessage envA
            { baseState with appState := AppState.speaking, isPlaying := true,
                             audioQueue := [[1], [2]] }
            (wsFrame WsType.user_speaking) =
          { baseState with appState := AppState.speaking, isPlaying := true,
                           audioQueue := [] }) ∧
      startedBufs
        (playNextInQueue (fun _ => true)
          (handleWebSocketMessage envA
            { baseState with appState := AppState.speaking, isPlaying := true,
                             audioQueue := [[1], [2]] }
            (wsFrame WsType.user_speaking))).2 = []) :=
  ⟨rfl, user_speaking_bargein envA
    { baseState with appState := AppState.speaking, isPlaying := true,
                     audioQueue := [[1], [2]] }
    (wsFrame WsType.user_speaking) (fun _ => true) rfl⟩

/- ------------------------------------------------------------------ -/
/- Claim C6                                                           -/
/- ------------------------------------------------------------------ -/

/-- Claim C6: attaching audio to a message that already has (truthy)
`audioData` is a no-op — the original bytes are preserved — and the
drain-complete backfill is applied at most once: it clears the fragment
accumulator, so running it again changes nothing. -/
theorem audio_backfill_idempotent :
    (∀ (combinedAudio : String) (prev : List Message) (lastMsg : Message),
      prev.getLast? = some lastMsg → lastMsg.type = Role.ai →
      strTruthy lastMsg.audioData = true →
      backfillMessages combinedAudio prev = prev) ∧
    (∀ st : HookState, drainBackfill (drainBackfill st) = drainBackfill st) := by
  constructor
  · intro a prev lastMsg hl hai htr
    simp [backfillMessages, hl, hai, htr]
  · intro st
    by_cases h : st.currentAiAudioChunks.length > 0 <;>
      simp [drainBackfill, h]

/-- An AI message that already carries audio data. -/
def aiMsgWithAudio : Message :=
  { id := "1", type := Role.ai, text := "xin chào", timestamp := "00:00",
    audioData := some "QUJD" }

/-- Witness for C6 on a concrete one-message history. -/
theorem audio_backfill_idempotent_witness :
    [aiMsgWithAudio].getLast? = some aiMsgWithAudio ∧
    aiMsgWithAudio.type = Role.ai ∧
    strTruthy aiMsgWithAudio.audioData = true ∧
    backfillMessages "xyz" [aiMsgWithAudio] = [aiMsgWithAudio] :=
  ⟨rfl, rfl, by decide,
   audio_backfill_idempotent.1 "xyz" [aiMsgWithAudio] aiMsgWithAudio rfl rfl
     (by decide)⟩

/- ------------------------------------------------------------------ -/
/- Claim C7 (corrected)                                               -/
/- ------------------------------------------------------------------ -/

/-- A final transcript frame with empty text. -/
def frameEmptyFinal : WebSocketMessage :=
  { wsFrame WsType.transcript with text := some "", isFinal := some true }

/-- Counterexample for C7 as stated: a transcript frame with `isFinal` set
but empty text is dropped by the `if (data.text)` truthiness guard — no user
message is appended and `appState` does not become `processing`. -/
theorem transcript_final_empty_text_noop :
    handleWebSocketMessage envA baseState frameEmptyFinal = baseState ∧
    (handleWebSocketMessage envA baseState frameEmptyFinal).appState ≠
      AppState.processing ∧
    (handleWebSocketMessage envA baseState frameEmptyFinal).messages = [] := by
  decide

/-- Claim C7 (amended): for every inbound transcript frame with `isFinal`
set and non-empty text, the current transcript is replaced with the frame's
text, a user message with that text is appended — with the base64-encoded
local capture buffer attached as its audio if the buffer is non-empty and
no audio otherwise — the capture buffer is cleared, and `appState`
transitions to `processing`. -/
theorem transcript_final_effect (env : MsgEnv) (st : HookState)
    (frame : WebSocketMessage) (t : String)
    (htype : frame.type = WsType.transcript) (htext : frame.text = some t)
    (hne : t ≠ "") (hfin : frame.isFinal = some true) :
    (handleWebSocketMessage env st frame).transcript = t ∧
    (handleWebSocketMessage env st frame).appState = AppState.processing ∧
    (handleWebSocketMessage env st frame).userRecordedAudio = [] ∧
    (handleWebSocketMessage env st frame).messages =
      st.messages ++
        [{ id := env.nowId, type := Role.user, text := t,
           timestamp := env.nowTimestamp,
           audioData := if st.userRecordedAudio.length > 0 then
               some (base64Encode st.userRecordedAudio.flatten)
             else none }] := by
  obtain ⟨ty, text, fin, emo, dat, msg, proc⟩ := frame
  simp only at htype htext hfin
  subst htype
  subst htext
  subst hfin
  by_cases hu : st.userRecordedAudio.length > 0
  · simp [handleWebSocketMessage, hne, addMessage, hu]
  · have h0 : st.userRecordedAudio = [] := by
      rw [← List.length_eq_zero]
      omega
    simp [handleWebSocketMessage, hne, addMessage, hu, h0]

/-- A state holding one locally captured audio chunk. -/
def stRec : HookState := { baseState with userRecordedAudio := [[1, 2]] }

/-- A final transcript frame with non-empty text. -/
def frameFinalXin : WebSocketMessage :=
  { wsFrame WsType.transcript with text := some "xin chào",
                                   isFinal := some true }

/-- Witness for C7 (amended) on a state with a non-empty capture buffer. -/
theorem transcript_final_effect_witness :
    ("xin chào" : String) ≠ "" ∧
    ((handleWebSocketMessage envA stRec frameFinalXin).transcript =
        "xin chào" ∧
      (handleWebSocketMessage envA stRec frameFinalXin).appState =
        AppState.processing ∧
      (handleWebSocketMessage envA stRec frameFinalXin).userRecordedAudio =
        [] ∧
      (handleWebSocketMessage envA stRec frameFinalXin).messages =
        stRec.messages ++
          [{ id := envA.nowId, type := Role.user, text := "xin chào",
             timestamp := envA.nowTimestamp,
             audioData := if stRec.userRecordedAudio.length > 0 then
                 some (base64Encode stRec.userRecordedAudio.flatten)
               else none }]) :=
  ⟨by decide,
   transcript_final_effect envA stRec frameFinalXin "xin chào" rfl rfl
     (by decide) rfl⟩

/- ------------------------------------------------------------------ -/
/- Claim C8                                                           -/
/- ------------------------------------------------------------------ -/

/-- Claim C8: when the playback queue is empty and nothing remains to play
while the session is still `speaking`: if the conversation-active flag is
set, microphone capture resumes (`_startMediaRecorder` is invoked, the
`resumeCapture` event); otherwise `appState` transitions to `idle` and
emotion resets to `NEUTRAL`. -/
theorem drain_complete_behavior (d : List ℕ → Bool) (st : HookState)
    (hq : st.audioQueue = []) (hs : st.appState = AppState.speaking) :
    (st.isConversationActive = true →
      (playNextInQueue d st).2 = [SeqEvent.resumeCapture]) ∧
    (st.isConversationActive = false →
      (playNextInQueue d st).1.appState = AppState.idle ∧
      (playNextInQueue d st).1.emotion = Emotion.NEUTRAL) := by
  have h1 : playNextInQueue d st =
      drainEmptySpeak (drainBackfill { st with isPlaying := false }) := by
    unfold playNextInQueue
    rw [hq]
    simp [drainFrom, drainEmptyBranch, hq]
  obtain ⟨ha, hc, he⟩ := drainBackfill_notPlaying_fields st
  constructor
  · intro hact
    rw [h1]
    unfold drainEmptySpeak
    rw [ha, hc, hs, hact]
    simp
  · intro hact
    rw [h1]
    unfold drainEmptySpeak
    rw [ha, hc, hs, hact]
    simp

/-- Witness for C8 on the hands-free state: the drain-complete branch
resumes capture. -/
theorem drain_complete_behavior_witness :
    stMicFail.audioQueue = [] ∧ stMicFail.appState = AppState.speaking ∧
    stMicFail.isConversationActive = true ∧
    (playNextInQueue (fun _ => true) stMicFail).2 =
      [SeqEvent.resumeCapture] :=
  ⟨rfl, rfl, rfl,
   (drain_complete_behavior (fun _ => true) stMicFail rfl rfl).1 rfl⟩
